import Mathlib

/-!
Verification of the tiered vertex-buffer memory manager
(panda/src/gobj/geomVertexArrayData.cxx).

Byte buffers are modelled as lists of natural numbers.  The external
collaborators (zlib codec, VertexDataSaveFile, PreparedGraphicsObjects)
are modelled as explicit parameters or, where the spec pins their
behaviour down, as definitions noted as modelled from the spec.
-/

namespace GeomVertexArrayDataModel

/-! ## Array format (GeomVertexArrayFormat / GeomVertexColumn) -/

/-- One column of an array format: start offset within a row, number of
numeric components, and bytes per component. -/
structure GeomVertexColumn where
  start : Nat
  num_components : Nat
  component_bytes : Nat
deriving DecidableEq

/-- An array format: the ordered columns and the row stride in bytes. -/
structure GeomVertexArrayFormat where
  columns : List GeomVertexColumn
  stride : Nat
deriving DecidableEq

/-! ## reverse_data_endianness (lines 650-676 of geomVertexArrayData.cxx)

The C++ loops are embedded faithfully, including the slip in the inner
component loop: the offset used for the reversal is the shadowed local
(computed once per column as the current row index plus the column
start) and the increment at the bottom of the component loop is applied
to the ROW index pi, not to the component offset. -/

/-- ReversedNumericData nd(source + off, nbytes); nd.store_value(dest + off,
nbytes): write into dest at off..off+nbytes-1 the nbytes bytes of source
at the same offsets in reversed order. -/
def store_reversed (source dest : List Nat) (off nbytes : Nat) : List Nat :=
  (List.range nbytes).foldl
    (fun d j => d.set (off + j) (source.getD (off + (nbytes - 1 - j)) 0)) dest

/-- The inner cj loop over a column of num_components components: the store
offset stays at the (shadowed) column offset co computed on entry, while the
row index pi is what gets advanced by component_bytes each iteration. -/
def component_loop (source : List Nat) (co nbytes : Nat) :
    Nat → Nat → List Nat → Nat × List Nat
  | 0, pi, dest => (pi, dest)
  | Nat.succ k, pi, dest =>
      component_loop source co nbytes k (pi + nbytes) (store_reversed source dest co nbytes)

/-- The middle ci loop over the columns of the format; columns whose
component size is 1 byte or less are skipped. -/
def column_loop (source : List Nat) :
    List GeomVertexColumn → Nat → List Nat → Nat × List Nat
  | [], pi, dest => (pi, dest)
  | col :: rest, pi, dest =>
      if col.component_bytes > 1 then
        let co := pi + col.start
        let r := component_loop source co col.component_bytes col.num_components pi dest
        column_loop source rest r.1 r.2
      else
        column_loop source rest pi dest

/-- The outer row loop: for (pi = 0; pi < size; pi += stride), where pi is
also mutated by the component loops.  Fuel bounds the iteration count; with
a positive stride, size + 1 steps are never exhausted. -/
def row_loop (fmt : GeomVertexArrayFormat) (source : List Nat) (size : Nat) :
    Nat → Nat → List Nat → List Nat
  | 0, _, dest => dest
  | Nat.succ fuel, pi, dest =>
      if pi < size then
        let r := column_loop source fmt.columns pi dest
        row_loop fmt source size fuel (r.1 + fmt.stride) r.2
      else dest

/-- GeomVertexArrayData::reverse_data_endianness, applied as each caller
does to a freshly value-initialized (all-zero) destination buffer of the
same size. -/
def reverse_data_endianness (fmt : GeomVertexArrayFormat)
    (source : List Nat) (size : Nat) : List Nat :=
  row_loop fmt source size (size + 1) 0 (List.replicate size 0)

/-- Scenario 4 of the spec: one column of two 4-byte components, stride 8. -/
def endian_cex_format : GeomVertexArrayFormat :=
  { columns := [{ start := 0, num_components := 2, component_bytes := 4 }]
    stride := 8 }

/-- A 3-row, 24-byte source buffer with distinct byte values. -/
def endian_cex_source : List Nat :=
  [1, 2, 3, 4, 5, 6, 7, 8, 9, 10, 11, 12,
   13, 14, 15, 16, 17, 18, 19, 20, 21, 22, 23, 24]

/-- What the spec says the conversion produces on endian_cex_source: each
4-byte component of each row byte-reversed. -/
def endian_cex_expected : List Nat :=
  [4, 3, 2, 1, 8, 7, 6, 5, 12, 11, 10, 9,
   16, 15, 14, 13, 20, 19, 18, 17, 24, 23, 22, 21]

/-! ## Residency state machine

The buffer fields used by the residency transitions, the three global
LRUs, and the state of the external save file.  LRU recency marking is
recorded as an event trace so that the touch behaviour of each
transition can be stated. -/

/-- The four residency classes of a buffer (enum RamClass). -/
inductive RamClass where
  | RC_resident
  | RC_compressed
  | RC_disk
  | RC_compressed_disk
deriving DecidableEq

open RamClass

/-- The three global LRUs (_ram_lru, _compressed_lru, _disk_lru). -/
inductive LruTier where
  | ram_lru
  | compressed_lru
  | disk_lru
deriving DecidableEq

/-- The _global_lru table: Disk and CompressedDisk share the disk LRU. -/
def global_lru : RamClass → LruTier
  | RC_resident => LruTier.ram_lru
  | RC_compressed => LruTier.compressed_lru
  | RC_disk => LruTier.disk_lru
  | RC_compressed_disk => LruTier.disk_lru

/-- Observable events of a transition: a page being marked recently used
on a tier, or the eviction warning. -/
inductive Event where
  | mark_used (t : LruTier)
  | warning
deriving DecidableEq

/-- A SaveBlock.  Modelled from the spec: the SaveFile sources are not
under src/; the spec requires read_data to return exactly the originally
written bytes, so the model lets the block carry them (get_size is their
length). -/
structure SaveBlock where
  contents : List Nat
deriving DecidableEq

/-- Modelled from the spec: VertexDataSaveFile (sources not under src/),
reduced to the capacity bookkeeping the spec gives it: a maximum size
(negative means unlimited) and the bytes currently allocated. -/
structure VertexDataSaveFile where
  max_size : Int
  used : Nat
deriving DecidableEq

/-- Modelled from the spec: write_data appends the bytes if the configured
maximum disk size is not exceeded, returning the new block; otherwise it
returns null and changes nothing. -/
def VertexDataSaveFile.write_data (sf : VertexDataSaveFile) (bytes : List Nat) :
    VertexDataSaveFile × Option SaveBlock :=
  if sf.max_size < 0 ∨ (sf.used + bytes.length : Int) ≤ sf.max_size then
    ({ sf with used := sf.used + bytes.length }, some ⟨bytes⟩)
  else
    (sf, none)

/-- Modelled from the spec: freeing a block returns its range to the
allocator. -/
def VertexDataSaveFile.free_block (sf : VertexDataSaveFile) (blk : SaveBlock) :
    VertexDataSaveFile :=
  { sf with used := sf.used - blk.contents.length }

/-- The per-buffer fields the residency transitions touch: the (single
stage) CData byte vector and its uncompressed full size, the residency
class, the optional saved block, and the SimpleLruPage state (which LRU
the page is on and its recorded size). -/
structure Buffer where
  data : List Nat
  data_full_size : Nat
  ram_class : RamClass
  saved_block : Option SaveBlock
  lru : LruTier
  lru_size : Nat
deriving DecidableEq

/-- A buffer together with the global save file, the compressed LRU
budget (_compressed_lru.get_max_size()) and the trace of LRU events. -/
structure SysState where
  buf : Buffer
  sf : VertexDataSaveFile
  compressed_lru_max_size : Int
  trace : List Event
deriving DecidableEq

/-- The zlib codec, an opaque external collaborator: compress is
compress2 on its success path (input is the first data_full_size bytes),
decompress is uncompress given the compressed bytes and the expected
uncompressed size. -/
structure Codec where
  compress : List Nat → List Nat
  decompress : List Nat → Nat → List Nat

/-- min-vertex-data-compress-size, a static configured constant. -/
def min_vertex_data_compress_size : Nat := 64

/-- SimpleLruPage::mark_used_lru(): mark the page recently used on the
LRU it is currently on. -/
def mark_used_lru (s : SysState) : SysState :=
  { s with trace := s.trace ++ [Event.mark_used s.buf.lru] }

/-- SimpleLruPage::mark_used_lru(lru): move the page onto the given LRU
at the most recently used end. -/
def mark_used_lru_on (t : LruTier) (s : SysState) : SysState :=
  { s with buf := { s.buf with lru := t }
           trace := s.trace ++ [Event.mark_used t] }

/-- Modelled from the spec: set_ram_class lives in the inline .I file,
which is not under src/; per the accounting rule a residency change sets
the class and re-enrolls the page at the MRU end of the class's tier. -/
def set_ram_class (rc : RamClass) (s : SysState) : SysState :=
  mark_used_lru_on (global_lru rc) { s with buf := { s.buf with ram_class := rc } }

/-- SimpleLruPage::set_lru_size(n). -/
def set_lru_size (n : Nat) (s : SysState) : SysState :=
  { s with buf := { s.buf with lru_size := n } }

/-- GeomVertexArrayData::restore_from_disk (lines 544-574).  The failed
assertion on a missing saved block is modelled as the release-build
return. -/
def restore_from_disk (s : SysState) : SysState :=
  if s.buf.ram_class = RC_disk ∨ s.buf.ram_class = RC_compressed_disk then
    match s.buf.saved_block with
    | none => s
    | some blk =>
        let s1 : SysState :=
          { s with sf := s.sf.free_block blk
                   buf := { s.buf with data := blk.contents, saved_block := none } }
        if s.buf.ram_class = RC_compressed_disk then
          set_ram_class RC_compressed s1
        else
          set_ram_class RC_resident s1
  else
    s

/-- GeomVertexArrayData::make_resident (lines 385-426), HAVE_ZLIB build. -/
def make_resident (c : Codec) (s : SysState) : SysState :=
  if s.buf.ram_class = RC_resident then
    mark_used_lru s
  else
    let s1 :=
      if s.buf.ram_class = RC_disk ∨ s.buf.ram_class = RC_compressed_disk then
        restore_from_disk s
      else s
    if s1.buf.ram_class = RC_compressed then
      let s2 :=
        if s1.buf.data_full_size > min_vertex_data_compress_size then
          { s1 with buf := { s1.buf with
              data := c.decompress s1.buf.data s1.buf.data_full_size } }
        else s1
      set_ram_class RC_resident (set_lru_size s2.buf.data.length s2)
    else s1

/-- GeomVertexArrayData::make_compressed (lines 434-484), HAVE_ZLIB
build.  compress2 reads data_full_size bytes from the data vector and
its output replaces the data vector unconditionally. -/
def make_compressed (c : Codec) (s : SysState) : SysState :=
  if s.buf.ram_class = RC_compressed then
    mark_used_lru s
  else
    let s1 :=
      if s.buf.ram_class = RC_disk ∨ s.buf.ram_class = RC_compressed_disk then
        restore_from_disk s
      else s
    if s1.buf.ram_class = RC_resident then
      let s2 :=
        if s1.buf.data_full_size > min_vertex_data_compress_size then
          { s1 with buf := { s1.buf with
              data := c.compress (s1.buf.data.take s1.buf.data_full_size) } }
        else s1
      set_ram_class RC_compressed (set_lru_size s2.buf.data.length s2)
    else s1

/-- GeomVertexArrayData::make_disk (lines 492-535).  The failed assertion
on a present saved block is modelled as the release-build return. -/
def make_disk (s : SysState) : SysState :=
  match s.buf.ram_class with
  | RC_disk | RC_compressed_disk => mark_used_lru s
  | _ =>
      match s.buf.saved_block with
      | some _ => s
      | none =>
          match s.sf.write_data s.buf.data with
          | (sf2, none) => mark_used_lru { s with sf := sf2 }
          | (sf2, some blk) =>
              let s1 : SysState :=
                { s with sf := sf2
                         buf := { s.buf with saved_block := some blk, data := [] } }
              if s.buf.ram_class = RC_resident then set_ram_class RC_disk s1
              else set_ram_class RC_compressed_disk s1

/-- GeomVertexArrayData::evict_lru (lines 591-617). -/
def evict_lru (c : Codec) (s : SysState) : SysState :=
  match s.buf.ram_class with
  | RC_resident =>
      if s.compressed_lru_max_size = 0 then make_disk s else make_compressed c s
  | RC_compressed => make_disk s
  | RC_disk | RC_compressed_disk =>
      { s with trace := s.trace ++ [Event.warning] }

/-- The published constructor (lines 129-148): created Resident with no
saved block, on the RAM LRU. -/
def newGeomVertexArrayData : Buffer :=
  { data := [], data_full_size := 0, ram_class := RC_resident,
    saved_block := none, lru := LruTier.ram_lru, lru_size := 0 }

/-- The copy constructor (lines 155-169): copies the cycler (bytes) and
the ram class, but sets the saved block to null, and enrolls on the
class's LRU. -/
def copyGeomVertexArrayData (src : Buffer) : Buffer :=
  { data := src.data, data_full_size := src.data_full_size,
    ram_class := src.ram_class, saved_block := none,
    lru := global_lru src.ram_class, lru_size := src.lru_size }

/-- The residency invariant of the spec: a disk class means the
in-memory bytes are empty and a SaveBlock is present; a RAM class means
no SaveBlock is present. -/
def ramInvariant (b : Buffer) : Prop :=
  ((b.ram_class = RC_disk ∨ b.ram_class = RC_compressed_disk) →
      b.data = [] ∧ b.saved_block ≠ none) ∧
  ((b.ram_class = RC_resident ∨ b.ram_class = RC_compressed) →
      b.saved_block = none)

instance (b : Buffer) : Decidable (ramInvariant b) := by
  unfold ramInvariant; infer_instance

/-! ## Device context table (prepare_now, lines 296-310)

Devices (PreparedGraphicsObjects) and contexts (VertexBufferContext)
are identified by numbers; the collaborator's
prepare_vertex_buffer_now result is an explicit parameter, with none
standing for a null pointer. -/

/-- _contexts.find(prepared_objects) on the association list. -/
def ctx_find (cs : List (Nat × Nat)) (d : Nat) : Option Nat :=
  match cs with
  | [] => none
  | (k, v) :: rest => if k = d then some v else ctx_find rest d

/-- _contexts[prepared_objects] = vbc: insert or overwrite. -/
def ctx_store (cs : List (Nat × Nat)) (d v : Nat) : List (Nat × Nat) :=
  match cs with
  | [] => [(d, v)]
  | (k, w) :: rest => if k = d then (d, v) :: rest else (k, w) :: ctx_store rest d v

/-- GeomVertexArrayData::prepare_now: return the existing context if
present; otherwise call the collaborator (result is the parameter vbc)
and record it only when non-null. -/
def prepare_now (vbc : Option Nat) (contexts : List (Nat × Nat)) (d : Nat) :
    Option Nat × List (Nat × Nat) :=
  match ctx_find contexts d with
  | some c => (some c, contexts)
  | none =>
      match vbc with
      | none => (none, contexts)
      | some c => (some c, ctx_store contexts d c)

/-! ## Concrete instances used by witnesses and counterexamples -/

/-- A codec whose two directions are the identity. -/
def idCodec : Codec :=
  { compress := fun l => l, decompress := fun l _ => l }

/-- A codec whose compressed output is one byte longer than its input. -/
def growCodec : Codec :=
  { compress := fun l => l ++ [0], decompress := fun l _ => l }

/-- A save file with no size limit. -/
def sf_unlimited : VertexDataSaveFile := { max_size := -1, used := 0 }

/-- A save file whose configured maximum size is zero. -/
def sf_zero : VertexDataSaveFile := { max_size := 0, used := 0 }

/-- A small resident buffer of three bytes. -/
def resident_buffer3 : Buffer :=
  { data := [1, 2, 3], data_full_size := 3, ram_class := RC_resident,
    saved_block := none, lru := LruTier.ram_lru, lru_size := 3 }

/-- A resident buffer of 65 bytes, above min-vertex-data-compress-size. -/
def big_buffer65 : Buffer :=
  { data := List.replicate 65 7, data_full_size := 65, ram_class := RC_resident,
    saved_block := none, lru := LruTier.ram_lru, lru_size := 65 }

/-- A resident buffer of 32 bytes, below min-vertex-data-compress-size. -/
def tiny_buffer32 : Buffer :=
  { data := List.replicate 32 5, data_full_size := 32, ram_class := RC_resident,
    saved_block := none, lru := LruTier.ram_lru, lru_size := 32 }

/-- A buffer spilled to disk uncompressed. -/
def disk_buffer : Buffer :=
  { data := [], data_full_size := 2, ram_class := RC_disk,
    saved_block := some ⟨[5, 6]⟩, lru := LruTier.disk_lru, lru_size := 0 }

/-- A disk-class buffer used by the C4 counterexample. -/
def disk_class_buffer : Buffer :=
  { data := [], data_full_size := 3, ram_class := RC_disk,
    saved_block := some ⟨[1, 2, 3]⟩, lru := LruTier.disk_lru, lru_size := 0 }

/-- State for the codec-output counterexample: 65-byte resident buffer. -/
def st_c2 : SysState :=
  { buf := big_buffer65, sf := sf_unlimited, compressed_lru_max_size := -1, trace := [] }

/-- State whose save file refuses every nonempty write. -/
def st_c3 : SysState :=
  { buf := resident_buffer3, sf := sf_zero, compressed_lru_max_size := -1, trace := [] }

/-- Resident state over an unlimited save file. -/
def st_c5 : SysState :=
  { buf := resident_buffer3, sf := sf_unlimited, compressed_lru_max_size := -1, trace := [] }

/-- Disk state over an unlimited save file. -/
def st_c6 : SysState :=
  { buf := disk_buffer, sf := sf_unlimited, compressed_lru_max_size := -1, trace := [] }

/-- Resident state used for a no-op restore_from_disk. -/
def st_c6r : SysState :=
  { buf := resident_buffer3, sf := sf_unlimited, compressed_lru_max_size := -1, trace := [] }

/-- Resident state with a nonzero compressed-tier budget. -/
def st_c7a : SysState :=
  { buf := tiny_buffer32, sf := sf_unlimited, compressed_lru_max_size := -1, trace := [] }

/-- Disk-class state for the eviction warning case. -/
def st_c7d : SysState :=
  { buf := disk_buffer, sf := sf_unlimited, compressed_lru_max_size := -1, trace := [] }

/-- Resident state used for the idempotence witness. -/
def st_c8 : SysState :=
  { buf := tiny_buffer32, sf := sf_unlimited, compressed_lru_max_size := -1, trace := [] }

/-- Resident state of a tiny buffer. -/
def st_c9 : SysState :=
  { buf := tiny_buffer32, sf := sf_unlimited, compressed_lru_max_size := -1, trace := [] }

/-! ## Helper lemmas -/

/-- A refused write leaves the save file unchanged. -/
lemma write_data_refused (sf : VertexDataSaveFile) (bytes : List Nat)
    (h : (sf.write_data bytes).2 = none) :
    sf.write_data bytes = (sf, none) := by
  by_cases hc : sf.max_size < 0 ∨ (sf.used + bytes.length : Int) ≤ sf.max_size
  · simp [VertexDataSaveFile.write_data, hc] at h
  · simp [VertexDataSaveFile.write_data, hc]

/-- A successful write stores exactly the given bytes in the returned
block and accounts them in the file. -/
lemma write_data_succeeded (sf : VertexDataSaveFile) (bytes : List Nat) (blk : SaveBlock)
    (h : (sf.write_data bytes).2 = some blk) :
    blk.contents = bytes ∧
    sf.write_data bytes = ({ sf with used := sf.used + bytes.length }, some blk) := by
  obtain ⟨bc⟩ := blk
  by_cases hc : sf.max_size < 0 ∨ (sf.used + bytes.length : Int) ≤ sf.max_size
  · simp [VertexDataSaveFile.write_data, hc] at h ⊢
    exact ⟨h.symm, h⟩
  · simp [VertexDataSaveFile.write_data, hc] at h

/-- Restoring a Disk-class buffer with a block produces the fully
evaluated resident state. -/
lemma restore_eq_disk (s : SysState) (blk : SaveBlock)
    (hc : s.buf.ram_class = RC_disk) (hb : s.buf.saved_block = some blk) :
    restore_from_disk s =
      { buf := { data := blk.contents, data_full_size := s.buf.data_full_size,
                 ram_class := RC_resident, saved_block := none,
                 lru := LruTier.ram_lru, lru_size := s.buf.lru_size }
        sf := s.sf.free_block blk
        compressed_lru_max_size := s.compressed_lru_max_size
        trace := s.trace ++ [Event.mark_used LruTier.ram_lru] } := by
  simp [restore_from_disk, hc, hb, set_ram_class, mark_used_lru_on, global_lru]

/-- Restoring a CompressedDisk-class buffer with a block produces the
fully evaluated compressed state. -/
lemma restore_eq_cdisk (s : SysState) (blk : SaveBlock)
    (hc : s.buf.ram_class = RC_compressed_disk) (hb : s.buf.saved_block = some blk) :
    restore_from_disk s =
      { buf := { data := blk.contents, data_full_size := s.buf.data_full_size,
                 ram_class := RC_compressed, saved_block := none,
                 lru := LruTier.compressed_lru, lru_size := s.buf.lru_size }
        sf := s.sf.free_block blk
        compressed_lru_max_size := s.compressed_lru_max_size
        trace := s.trace ++ [Event.mark_used LruTier.compressed_lru] } := by
  simp [restore_from_disk, hc, hb, set_ram_class, mark_used_lru_on, global_lru]

/-- Under the residency invariant, make_resident always ends Resident. -/
lemma make_resident_class (c : Codec) (s : SysState) (hP : ramInvariant s.buf) :
    (make_resident c s).buf.ram_class = RC_resident := by
  cases hc : s.buf.ram_class
  case RC_resident =>
    simp [make_resident, hc, mark_used_lru]
  case RC_compressed =>
    by_cases hfull : s.buf.data_full_size > min_vertex_data_compress_size <;>
      simp [make_resident, hc, hfull, set_ram_class, mark_used_lru_on, set_lru_size]
  case RC_disk =>
    obtain ⟨blk, hb⟩ := Option.ne_none_iff_exists'.mp (hP.1 (Or.inl hc)).2
    simp [make_resident, hc, restore_eq_disk s blk hc hb]
  case RC_compressed_disk =>
    obtain ⟨blk, hb⟩ := Option.ne_none_iff_exists'.mp (hP.1 (Or.inr hc)).2
    by_cases hfull : s.buf.data_full_size > min_vertex_data_compress_size <;>
      simp [make_resident, hc, restore_eq_cdisk s blk hc hb, hfull, set_ram_class,
        mark_used_lru_on, set_lru_size]

/-- Under the residency invariant, make_compressed always ends
Compressed. -/
lemma make_compressed_class (c : Codec) (s : SysState) (hP : ramInvariant s.buf) :
    (make_compressed c s).buf.ram_class = RC_compressed := by
  cases hc : s.buf.ram_class
  case RC_resident =>
    by_cases hfull : s.buf.data_full_size > min_vertex_data_compress_size <;>
      simp [make_compressed, hc, hfull, set_ram_class, mark_used_lru_on, set_lru_size]
  case RC_compressed =>
    simp [make_compressed, hc, mark_used_lru]
  case RC_disk =>
    obtain ⟨blk, hb⟩ := Option.ne_none_iff_exists'.mp (hP.1 (Or.inl hc)).2
    by_cases hfull : s.buf.data_full_size > min_vertex_data_compress_size <;>
      simp [make_compressed, hc, restore_eq_disk s blk hc hb, hfull, set_ram_class,
        mark_used_lru_on, set_lru_size]
  case RC_compressed_disk =>
    obtain ⟨blk, hb⟩ := Option.ne_none_iff_exists'.mp (hP.1 (Or.inr hc)).2
    simp [make_compressed, hc, restore_eq_cdisk s blk hc hb]

/-- make_resident on an already-Resident state only marks the page
used. -/
lemma make_resident_of_resident (c : Codec) (t : SysState)
    (h : t.buf.ram_class = RC_resident) :
    make_resident c t = mark_used_lru t := by
  simp [make_resident, h]

/-- make_compressed on an already-Compressed state only marks the page
used. -/
lemma make_compressed_of_compressed (c : Codec) (t : SysState)
    (h : t.buf.ram_class = RC_compressed) :
    make_compressed c t = mark_used_lru t := by
  simp [make_compressed, h]

/-- Restoring is the identity away from the disk classes. -/
lemma restore_of_ram_class (t : SysState)
    (h : t.buf.ram_class = RC_resident ∨ t.buf.ram_class = RC_compressed) :
    restore_from_disk t = t := by
  rcases h with h | h <;> simp [restore_from_disk, h]

/-- The residency invariant is preserved by restore_from_disk. -/
lemma inv_restore (s : SysState) (hP : ramInvariant s.buf) :
    ramInvariant (restore_from_disk s).buf := by
  cases hc : s.buf.ram_class
  case RC_resident => rw [restore_of_ram_class s (Or.inl hc)]; exact hP
  case RC_compressed => rw [restore_of_ram_class s (Or.inr hc)]; exact hP
  case RC_disk =>
    obtain ⟨blk, hb⟩ := Option.ne_none_iff_exists'.mp (hP.1 (Or.inl hc)).2
    rw [restore_eq_disk s blk hc hb]; simp [ramInvariant]
  case RC_compressed_disk =>
    obtain ⟨blk, hb⟩ := Option.ne_none_iff_exists'.mp (hP.1 (Or.inr hc)).2
    rw [restore_eq_cdisk s blk hc hb]; simp [ramInvariant]

/-- The residency invariant is preserved by make_resident. -/
lemma inv_make_resident (c : Codec) (s : SysState) (hP : ramInvariant s.buf) :
    ramInvariant (make_resident c s).buf := by
  cases hc : s.buf.ram_class
  case RC_resident =>
    simpa [make_resident, hc, mark_used_lru] using hP
  case RC_compressed =>
    have hb := hP.2 (Or.inr hc)
    by_cases hfull : s.buf.data_full_size > min_vertex_data_compress_size <;>
      simp [make_resident, hc, hfull, set_ram_class, mark_used_lru_on, set_lru_size,
        ramInvariant, hb]
  case RC_disk =>
    obtain ⟨blk, hb⟩ := Option.ne_none_iff_exists'.mp (hP.1 (Or.inl hc)).2
    simp [make_resident, hc, restore_eq_disk s blk hc hb, ramInvariant]
  case RC_compressed_disk =>
    obtain ⟨blk, hb⟩ := Option.ne_none_iff_exists'.mp (hP.1 (Or.inr hc)).2
    by_cases hfull : s.buf.data_full_size > min_vertex_data_compress_size <;>
      simp [make_resident, hc, restore_eq_cdisk s blk hc hb, hfull, set_ram_class,
        mark_used_lru_on, set_lru_size, ramInvariant]

/-- The residency invariant is preserved by make_compressed. -/
lemma inv_make_compressed (c : Codec) (s : SysState) (hP : ramInvariant s.buf) :
    ramInvariant (make_compressed c s).buf := by
  cases hc : s.buf.ram_class
  case RC_resident =>
    have hb := hP.2 (Or.inl hc)
    by_cases hfull : s.buf.data_full_size > min_vertex_data_compress_size <;>
      simp [make_compressed, hc, hfull, set_ram_class, mark_used_lru_on, set_lru_size,
        ramInvariant, hb]
  case RC_compressed =>
    simpa [make_compressed, hc, mark_used_lru] using hP
  case RC_disk =>
    obtain ⟨blk, hb⟩ := Option.ne_none_iff_exists'.mp (hP.1 (Or.inl hc)).2
    by_cases hfull : s.buf.data_full_size > min_vertex_data_compress_size <;>
      simp [make_compressed, hc, restore_eq_disk s blk hc hb, hfull, set_ram_class,
        mark_used_lru_on, set_lru_size, ramInvariant]
  case RC_compressed_disk =>
    obtain ⟨blk, hb⟩ := Option.ne_none_iff_exists'.mp (hP.1 (Or.inr hc)).2
    simp [make_compressed, hc, restore_eq_cdisk s blk hc hb, ramInvariant]

/-- The residency invariant is preserved by make_disk. -/
lemma inv_make_disk (s : SysState) (hP : ramInvariant s.buf) :
    ramInvariant (make_disk s).buf := by
  cases hc : s.buf.ram_class
  case RC_disk =>
    simpa [make_disk, hc, mark_used_lru] using hP
  case RC_compressed_disk =>
    simpa [make_disk, hc, mark_used_lru] using hP
  case RC_resident =>
    have hb := hP.2 (Or.inl hc)
    by_cases hw : s.sf.max_size < 0 ∨ (s.sf.used + s.buf.data.length : Int) ≤ s.sf.max_size <;>
      simp [make_disk, hc, hb, VertexDataSaveFile.write_data, hw, set_ram_class,
        mark_used_lru_on, mark_used_lru, ramInvariant]
  case RC_compressed =>
    have hb := hP.2 (Or.inr hc)
    by_cases hw : s.sf.max_size < 0 ∨ (s.sf.used + s.buf.data.length : Int) ≤ s.sf.max_size <;>
      simp [make_disk, hc, hb, VertexDataSaveFile.write_data, hw, set_ram_class,
        mark_used_lru_on, mark_used_lru, ramInvariant]

/-- The residency invariant is preserved by evict_lru. -/
lemma inv_evict_lru (c : Codec) (s : SysState) (hP : ramInvariant s.buf) :
    ramInvariant (evict_lru c s).buf := by
  cases hc : s.buf.ram_class
  case RC_resident =>
    by_cases hz : s.compressed_lru_max_size = 0
    · simpa [evict_lru, hc, hz] using inv_make_disk s hP
    · simpa [evict_lru, hc, hz] using inv_make_compressed c s hP
  case RC_compressed =>
    simpa [evict_lru, hc] using inv_make_disk s hP
  case RC_disk => simpa [evict_lru, hc] using hP
  case RC_compressed_disk => simpa [evict_lru, hc] using hP

/-- Under the residency invariant, a second make_disk call only marks
the page used. -/
lemma make_disk_twice (s : SysState) (hP : ramInvariant s.buf) :
    make_disk (make_disk s) = mark_used_lru (make_disk s) := by
  have key : ∀ t : SysState,
      t.buf.ram_class = RC_disk ∨ t.buf.ram_class = RC_compressed_disk →
      make_disk t = mark_used_lru t := by
    intro t ht
    rcases ht with h | h <;> simp [make_disk, h]
  cases hc : s.buf.ram_class
  case RC_disk =>
    rw [key s (Or.inl hc), key _ (Or.inl (by simpa [mark_used_lru] using hc))]
  case RC_compressed_disk =>
    rw [key s (Or.inr hc), key _ (Or.inr (by simpa [mark_used_lru] using hc))]
  case RC_resident =>
    have hb := hP.2 (Or.inl hc)
    by_cases hw : s.sf.max_size < 0 ∨ (s.sf.used + s.buf.data.length : Int) ≤ s.sf.max_size
    · rw [key _ (Or.inl (by
        simp [make_disk, hc, hb, VertexDataSaveFile.write_data, hw, set_ram_class,
          mark_used_lru_on]))]
    · simp [make_disk, hc, hb, VertexDataSaveFile.write_data, hw, mark_used_lru]
  case RC_compressed =>
    have hb := hP.2 (Or.inr hc)
    by_cases hw : s.sf.max_size < 0 ∨ (s.sf.used + s.buf.data.length : Int) ≤ s.sf.max_size
    · rw [key _ (Or.inr (by
        simp [make_disk, hc, hb, VertexDataSaveFile.write_data, hw, set_ram_class,
          mark_used_lru_on]))]
    · simp [make_disk, hc, hb, VertexDataSaveFile.write_data, hw, mark_used_lru]

/-! ## Claim theorems -/

/-- Claim C1 (code bug): the endianness conversion is supposed to
reverse, for each row of stride bytes and each column with component
size above one byte, the bytes of each of that column's components, and
to be an involution.  On the scenario-4 format (stride 8, one column of
two 4-byte components) and a 3-row buffer, the code instead reverses
only the first component of the first and third rows (the component loop
advances the row index pi instead of the component offset), leaves every
other output byte zero, and applying it twice does not give back the
source. -/
theorem reverse_data_endianness_code_bug :
    reverse_data_endianness endian_cex_format endian_cex_source 24 =
      [4, 3, 2, 1, 0, 0, 0, 0, 0, 0, 0, 0, 0, 0, 0, 0, 20, 19, 18, 17, 0, 0, 0, 0] ∧
    reverse_data_endianness endian_cex_format endian_cex_source 24 ≠
      endian_cex_expected ∧
    reverse_data_endianness endian_cex_format
        (reverse_data_endianness endian_cex_format endian_cex_source 24) 24 ≠
      endian_cex_source := by
  decide

/-- Claim C2, counterexample: with a codec whose output is one byte
larger than the 65-byte input, make_compressed sets the class to
Compressed but the bytes after the call are the codec output, not the
original uncompressed bytes as the claim states. -/
theorem make_compressed_larger_output_cex :
    (make_compressed growCodec st_c2).buf.ram_class = RC_compressed ∧
    (growCodec.compress (st_c2.buf.data.take st_c2.buf.data_full_size)).length >
      st_c2.buf.data.length ∧
    (make_compressed growCodec st_c2).buf.data ≠ st_c2.buf.data := by
  decide

/-- Claim C2, amended: for a Resident buffer with data_full_size above
min-compress-size, make_compressed calls the codec and unconditionally
installs the codec output as the buffer bytes (even when it is larger
than the input), sets the class to Compressed, and keeps data_full_size
at the uncompressed length. -/
theorem make_compressed_installs_codec_output (c : Codec) (s : SysState)
    (h1 : s.buf.ram_class = RC_resident)
    (h2 : s.buf.data_full_size > min_vertex_data_compress_size) :
    (make_compressed c s).buf.data =
      c.compress (s.buf.data.take s.buf.data_full_size) ∧
    (make_compressed c s).buf.ram_class = RC_compressed ∧
    (make_compressed c s).buf.data_full_size = s.buf.data_full_size := by
  simp [make_compressed, h1, h2, set_ram_class, mark_used_lru_on, set_lru_size]

/-- Witness for the amended C2 at the 65-byte buffer and the growing
codec. -/
theorem make_compressed_installs_codec_output_witness :
    (make_compressed growCodec st_c2).buf.data =
      growCodec.compress (st_c2.buf.data.take st_c2.buf.data_full_size) ∧
    (make_compressed growCodec st_c2).buf.ram_class = RC_compressed ∧
    (make_compressed growCodec st_c2).buf.data_full_size = st_c2.buf.data_full_size :=
  make_compressed_installs_codec_output growCodec st_c2 rfl (by decide)

/-- Claim C3: when the save-file write is refused, make_disk changes
neither the buffer (class, bytes, absent SaveBlock) nor the save file,
and re-marks the page as most recently used on its current tier. -/
theorem make_disk_refusal_unchanged (s : SysState)
    (h1 : s.buf.ram_class = RC_resident ∨ s.buf.ram_class = RC_compressed)
    (h2 : s.buf.saved_block = none)
    (h3 : (s.sf.write_data s.buf.data).2 = none)
    (h4 : s.buf.lru = global_lru s.buf.ram_class) :
    (make_disk s).buf = s.buf ∧
    (make_disk s).sf = s.sf ∧
    (make_disk s).trace = s.trace ++ [Event.mark_used (global_lru s.buf.ram_class)] := by
  have hw := write_data_refused s.sf s.buf.data h3
  rcases h1 with h | h <;> simp [make_disk, h, h2, hw, mark_used_lru, h4]

/-- Witness for C3: a 3-byte resident buffer over a zero-capacity save
file. -/
theorem make_disk_refusal_unchanged_witness :
    (make_disk st_c3).buf = st_c3.buf ∧
    (make_disk st_c3).sf = st_c3.sf ∧
    (make_disk st_c3).trace =
      st_c3.trace ++ [Event.mark_used (global_lru st_c3.buf.ram_class)] :=
  make_disk_refusal_unchanged st_c3 (Or.inl rfl) rfl (by decide) rfl

/-- Claim C4, counterexample: a Disk-class buffer satisfying the
residency invariant whose copy (copy constructor keeps the ram class but
drops the SaveBlock) violates it. -/
theorem copy_construction_invariant_cex :
    ramInvariant disk_class_buffer ∧
    ¬ ramInvariant (copyGeomVertexArrayData disk_class_buffer) := by
  decide

/-- Claim C4, amended: construction, make_resident, make_compressed,
make_disk, restore_from_disk and evict_lru preserve the residency
invariant (disk classes have empty bytes and a SaveBlock, RAM classes
have no SaveBlock); copy construction preserves it when the source is in
a RAM class (Resident or Compressed) - copying a disk-class buffer
violates it. -/
theorem public_ops_preserve_ram_invariant (c : Codec) (s : SysState) (src : Buffer)
    (hs : ramInvariant s.buf)
    (_hsrc1 : ramInvariant src)
    (hsrc2 : src.ram_class = RC_resident ∨ src.ram_class = RC_compressed) :
    ramInvariant newGeomVertexArrayData ∧
    ramInvariant (copyGeomVertexArrayData src) ∧
    ramInvariant (make_resident c s).buf ∧
    ramInvariant (make_compressed c s).buf ∧
    ramInvariant (make_disk s).buf ∧
    ramInvariant (restore_from_disk s).buf ∧
    ramInvariant (evict_lru c s).buf := by
  refine ⟨by decide, ?_, inv_make_resident c s hs, inv_make_compressed c s hs,
    inv_make_disk s hs, inv_restore s hs, inv_evict_lru c s hs⟩
  rcases hsrc2 with h | h <;> simp [copyGeomVertexArrayData, ramInvariant, h]

/-- Witness for the amended C4 at a resident state and resident copy
source. -/
theorem public_ops_preserve_ram_invariant_witness :
    ramInvariant (copyGeomVertexArrayData resident_buffer3) ∧
    ramInvariant (make_disk st_c5).buf :=
  ⟨(public_ops_preserve_ram_invariant idCodec st_c5 resident_buffer3
      (by decide) (by decide) (Or.inl rfl)).2.1,
   (public_ops_preserve_ram_invariant idCodec st_c5 resident_buffer3
      (by decide) (by decide) (Or.inl rfl)).2.2.2.2.1⟩

/-- Claim C5: from Resident or Compressed with no SaveBlock, a
successful save-file write makes make_disk record the block holding the
current bytes, empty the in-memory bytes, and set the class to Disk
(from Resident) or CompressedDisk (from Compressed). -/
theorem make_disk_success_spills (s : SysState) (blk : SaveBlock)
    (h1 : s.buf.ram_class = RC_resident ∨ s.buf.ram_class = RC_compressed)
    (h2 : s.buf.saved_block = none)
    (h3 : (s.sf.write_data s.buf.data).2 = some blk) :
    (make_disk s).buf.saved_block = some blk ∧
    blk.contents = s.buf.data ∧
    (make_disk s).buf.data = [] ∧
    (make_disk s).buf.ram_class =
      (if s.buf.ram_class = RC_resident then RC_disk else RC_compressed_disk) := by
  obtain ⟨hcon, hw⟩ := write_data_succeeded s.sf s.buf.data blk h3
  rcases h1 with h | h <;>
    simp [make_disk, h, h2, hw, hcon, set_ram_class, mark_used_lru_on]

/-- Witness for C5: the 3-byte resident buffer over an unlimited save
file. -/
theorem make_disk_success_spills_witness :
    (make_disk st_c5).buf.saved_block = some ⟨[1, 2, 3]⟩ ∧
    SaveBlock.contents ⟨[1, 2, 3]⟩ = st_c5.buf.data ∧
    (make_disk st_c5).buf.data = [] ∧
    (make_disk st_c5).buf.ram_class =
      (if st_c5.buf.ram_class = RC_resident then RC_disk else RC_compressed_disk) :=
  make_disk_success_spills st_c5 ⟨[1, 2, 3]⟩ (Or.inl rfl) rfl (by decide)

/-- Claim C6: restore_from_disk on a Disk or CompressedDisk buffer with
a SaveBlock reads exactly the block's bytes into the in-memory vector,
leaves the SaveBlock absent, and maps CompressedDisk to Compressed and
Disk to Resident; on a Resident or Compressed buffer it does nothing. -/
theorem restore_from_disk_correct (s : SysState) (blk : SaveBlock)
    (h1 : s.buf.ram_class = RC_disk ∨ s.buf.ram_class = RC_compressed_disk)
    (h2 : s.buf.saved_block = some blk) :
    (restore_from_disk s).buf.data = blk.contents ∧
    (restore_from_disk s).buf.data.length = blk.contents.length ∧
    (restore_from_disk s).buf.saved_block = none ∧
    (restore_from_disk s).buf.ram_class =
      (if s.buf.ram_class = RC_compressed_disk then RC_compressed else RC_resident) ∧
    (∀ t : SysState,
      t.buf.ram_class = RC_resident ∨ t.buf.ram_class = RC_compressed →
      restore_from_disk t = t) := by
  rcases h1 with h | h
  · refine ⟨?_, ?_, ?_, ?_, restore_of_ram_class⟩ <;>
      simp [restore_eq_disk s blk h h2, h]
  · refine ⟨?_, ?_, ?_, ?_, restore_of_ram_class⟩ <;>
      simp [restore_eq_cdisk s blk h h2, h]

/-- Witness for C6: a 2-byte block restored from Disk class, and a
resident state left untouched. -/
theorem restore_from_disk_correct_witness :
    (restore_from_disk st_c6).buf.data = [5, 6] ∧
    (restore_from_disk st_c6).buf.saved_block = none ∧
    (restore_from_disk st_c6).buf.ram_class = RC_resident ∧
    restore_from_disk st_c6r = st_c6r := by
  have h := restore_from_disk_correct st_c6 ⟨[5, 6]⟩ (Or.inl rfl) rfl
  exact ⟨h.1, h.2.2.1, by simpa using h.2.2.2.1, h.2.2.2.2 st_c6r (Or.inl rfl)⟩

/-- Claim C7: the eviction hook dispatches by class - a Resident buffer
is demoted via make_compressed (reaching Compressed) when the compressed
tier budget is nonzero and via make_disk when it is zero (reaching Disk
when the write succeeds); a Compressed buffer is demoted via make_disk
(reaching CompressedDisk, which lives on the disk tier, when the write
succeeds); a Disk or CompressedDisk buffer gets a warning and keeps its
class, bytes and SaveBlock. -/
theorem evict_lru_by_class (c : Codec) (s : SysState) :
    (s.buf.ram_class = RC_resident → s.compressed_lru_max_size ≠ 0 →
      evict_lru c s = make_compressed c s ∧
      (evict_lru c s).buf.ram_class = RC_compressed) ∧
    (s.buf.ram_class = RC_resident → s.compressed_lru_max_size = 0 →
      evict_lru c s = make_disk s ∧
      (s.buf.saved_block = none → ((s.sf.write_data s.buf.data).2).isSome = true →
        (evict_lru c s).buf.ram_class = RC_disk)) ∧
    (s.buf.ram_class = RC_compressed →
      evict_lru c s = make_disk s ∧
      (s.buf.saved_block = none → ((s.sf.write_data s.buf.data).2).isSome = true →
        (evict_lru c s).buf.ram_class = RC_compressed_disk ∧
        global_lru (evict_lru c s).buf.ram_class = LruTier.disk_lru)) ∧
    ((s.buf.ram_class = RC_disk ∨ s.buf.ram_class = RC_compressed_disk) →
      (evict_lru c s).buf = s.buf ∧ (evict_lru c s).sf = s.sf ∧
      (evict_lru c s).trace = s.trace ++ [Event.warning]) := by
  refine ⟨fun h hz => ⟨by simp [evict_lru, h, hz], ?_⟩,
    fun h hz => ⟨by simp [evict_lru, h, hz], fun hb hw => ?_⟩,
    fun h => ⟨by simp [evict_lru, h], fun hb hw => ⟨?_, ?_⟩⟩,
    fun h => by rcases h with h | h <;> simp [evict_lru, h]⟩
  · simp only [evict_lru, h, if_neg hz]
    by_cases hfull : s.buf.data_full_size > min_vertex_data_compress_size <;>
      simp [make_compressed, h, hfull, set_ram_class, mark_used_lru_on, set_lru_size]
  · obtain ⟨blk, hblk⟩ := Option.isSome_iff_exists.mp hw
    obtain ⟨hcon, hwd⟩ := write_data_succeeded s.sf s.buf.data blk hblk
    simp [evict_lru, h, hz, make_disk, hb, hwd, set_ram_class, mark_used_lru_on]
  · obtain ⟨blk, hblk⟩ := Option.isSome_iff_exists.mp hw
    obtain ⟨hcon, hwd⟩ := write_data_succeeded s.sf s.buf.data blk hblk
    simp [evict_lru, h, make_disk, hb, hwd, set_ram_class, mark_used_lru_on]
  · obtain ⟨blk, hblk⟩ := Option.isSome_iff_exists.mp hw
    obtain ⟨hcon, hwd⟩ := write_data_succeeded s.sf s.buf.data blk hblk
    simp [evict_lru, h, make_disk, hb, hwd, set_ram_class, mark_used_lru_on, global_lru]

/-- Witness for C7: a resident buffer with nonzero compressed budget is
demoted to Compressed; a disk-class buffer only gets a warning. -/
theorem evict_lru_by_class_witness :
    (evict_lru idCodec st_c7a).buf.ram_class = RC_compressed ∧
    (evict_lru idCodec st_c7d).buf = st_c7d.buf ∧
    (evict_lru idCodec st_c7d).trace = st_c7d.trace ++ [Event.warning] :=
  ⟨((evict_lru_by_class idCodec st_c7a).1 rfl (by decide)).2,
   ((evict_lru_by_class idCodec st_c7d).2.2.2 (Or.inl rfl)).1,
   ((evict_lru_by_class idCodec st_c7d).2.2.2 (Or.inl rfl)).2.2⟩

/-- Claim C8: under the residency invariant, each of make_resident,
make_compressed and make_disk is idempotent - the second call equals the
first followed only by a mark-recently-used of the page on its current
tier, so class and bytes are those of a single call. -/
theorem residency_transitions_idempotent (c : Codec) (s : SysState)
    (hP : ramInvariant s.buf) :
    make_resident c (make_resident c s) = mark_used_lru (make_resident c s) ∧
    (make_resident c (make_resident c s)).buf = (make_resident c s).buf ∧
    make_compressed c (make_compressed c s) = mark_used_lru (make_compressed c s) ∧
    (make_compressed c (make_compressed c s)).buf = (make_compressed c s).buf ∧
    make_disk (make_disk s) = mark_used_lru (make_disk s) ∧
    (make_disk (make_disk s)).buf = (make_disk s).buf := by
  have h1 := make_resident_of_resident c _ (make_resident_class c s hP)
  have h2 := make_compressed_of_compressed c _ (make_compressed_class c s hP)
  have h3 := make_disk_twice s hP
  exact ⟨h1, by rw [h1]; rfl, h2, by rw [h2]; rfl, h3, by rw [h3]; rfl⟩

/-- Witness for C8 at a tiny resident buffer. -/
theorem residency_transitions_idempotent_witness :
    make_resident idCodec (make_resident idCodec st_c8) =
      mark_used_lru (make_resident idCodec st_c8) ∧
    make_disk (make_disk st_c8) = mark_used_lru (make_disk st_c8) :=
  ⟨(residency_transitions_idempotent idCodec st_c8 (by decide)).1,
   (residency_transitions_idempotent idCodec st_c8 (by decide)).2.2.2.2.1⟩

/-- Claim C9: for a Resident buffer with data_full_size at most
min-compress-size, make_compressed leaves the bytes and their length
unchanged while setting the class to Compressed, and a subsequent
make_resident also leaves the bytes unchanged; neither direction
involves the codec (the results hold for every codec). -/
theorem tiny_buffer_skips_codec (c c2 : Codec) (s : SysState)
    (h1 : s.buf.ram_class = RC_resident)
    (h2 : s.buf.data_full_size ≤ min_vertex_data_compress_size) :
    (make_compressed c s).buf.data = s.buf.data ∧
    (make_compressed c s).buf.data.length = s.buf.data.length ∧
    (make_compressed c s).buf.ram_class = RC_compressed ∧
    (make_resident c2 (make_compressed c s)).buf.data = s.buf.data ∧
    (make_resident c2 (make_compressed c s)).buf.ram_class = RC_resident := by
  have hfull : ¬ (s.buf.data_full_size > min_vertex_data_compress_size) := by omega
  simp [make_compressed, make_resident, h1, hfull, set_ram_class, mark_used_lru_on,
    set_lru_size]

/-- Witness for C9 at a 32-byte resident buffer with two distinct
codecs. -/
theorem tiny_buffer_skips_codec_witness :
    (make_compressed growCodec st_c9).buf.data = st_c9.buf.data ∧
    (make_compressed growCodec st_c9).buf.ram_class = RC_compressed ∧
    (make_resident idCodec (make_compressed growCodec st_c9)).buf.data =
      st_c9.buf.data :=
  ⟨(tiny_buffer_skips_codec growCodec idCodec st_c9 rfl (by decide)).1,
   (tiny_buffer_skips_codec growCodec idCodec st_c9 rfl (by decide)).2.2.1,
   (tiny_buffer_skips_codec growCodec idCodec st_c9 rfl (by decide)).2.2.2.1⟩

/-- Claim C10: for a device not in the context table, a null result from
the collaborator makes prepare_now return null and leave the table
unchanged; a non-null result is returned and recorded. -/
theorem prepare_now_null_context (contexts : List (Nat × Nat)) (d v : Nat)
    (h : ctx_find contexts d = none) :
    prepare_now none contexts d = (none, contexts) ∧
    prepare_now (some v) contexts d = (some v, ctx_store contexts d v) := by
  simp [prepare_now, h]

/-- Witness for C10: device 2 is absent from a one-entry table. -/
theorem prepare_now_null_context_witness :
    prepare_now none [(1, 10)] 2 = (none, [(1, 10)]) ∧
    prepare_now (some 42) [(1, 10)] 2 = (some 42, ctx_store [(1, 10)] 2 42) :=
  prepare_now_null_context [(1, 10)] 2 42 rfl

end GeomVertexArrayDataModel
